import Mathlib

/-!
Verification of the YtDownloader single-file Telegram bot (`src/app.py`)
against its natural-language specification.

The handler `download_video`, the dispatcher error handler `error_handler`
and the constants are shallowly embedded as pure Lean functions.  All
external collaborators (the `validators` URL check, the `yt_dlp` library
calls, `os.path.getsize`, `os.remove`, and the Telegram `send_document`
upload) are modelled as an explicit environment of oracles; a handler run
is a pure function from that environment and the incoming message to the
ordered list of observable effects (replies, uploads, file removals, log
lines) it performs.  Python exceptions raised by the oracles are modelled
with `Except`.
-/

namespace YtDownloader

/-- `MAX_FILE_SIZE = 400 * 1024 * 1024` from `app.py` line 13. -/
def MAX_FILE_SIZE : Nat := 400 * 1024 * 1024

/-- `DOWNLOAD_DIR = "downloads"` from `app.py` line 14. -/
def DOWNLOAD_DIR : String := "downloads"

/-- Python `str.isspace` on the ASCII whitespace characters that
`str.strip()` removes by default. -/
def isPySpace (c : Char) : Bool :=
  c = ' ' || c = '\t' || c = '\n' || c = '\r' || c = '\x0b' || c = '\x0c'

/-- Strip from a character list: drop whitespace from the front, then from
the back. -/
def stripChars (l : List Char) : List Char :=
  ((l.dropWhile isPySpace).reverse.dropWhile isPySpace).reverse

/-- Model of Python `str.strip()` with no argument: removes leading and
trailing whitespace. Used at `app.py` line 47. -/
def pyStrip (s : String) : String :=
  String.mk (stripChars s.data)

/-- Reply sent for an invalid URL (`app.py` line 53). -/
def invalidUrlMsg : String := "❌ <b>Oops!</b> Send a valid URL! 😕"

/-- Progress notice sent before the download starts (`app.py` line 57). -/
def downloadingMsg : String := "⏳ <b>Downloading...</b> 🌠 (Spinning up turbo mode!)"

/-- Two-digit zero padding for the fractional part of the size rendering. -/
def pad2 (n : Nat) : String :=
  if n < 10 then "0" ++ toString n else toString n

/-- Model of Python `f"{file_size / 1024 / 1024:.2f}"`: the byte count
divided by 1024 twice, rendered with two decimal places.  Modelled with
exact rational arithmetic (round half to even on hundredths of a MiB)
rather than binary floating point. -/
def formatMB (bytes : Nat) : String :=
  let num := bytes * 100
  let den := 1024 * 1024
  let q := num / den
  let r := num % den
  let rounded :=
    if 2 * r > den then q + 1
    else if 2 * r < den then q
    else if q % 2 = 0 then q else q + 1
  toString (rounded / 100) ++ "." ++ pad2 (rounded % 100)

/-- The rejection message of the size gatekeeper (`app.py` line 84),
embedding the title and the size in MiB with two decimals. -/
def tooLargeMsg (title : String) (size : Nat) : String :=
  "❌ <b>Sorry!</b> \x27" ++ title ++ "\x27 is too large (" ++ formatMB size
    ++ " MB). Max is 400MB! 😞"

/-- Caption attached to the delivered document (`app.py` line 96). -/
def captionMsg (title : String) : String :=
  "🎉 <b>Here’s your file!</b> " ++ title ++ " 🚀"

/-- Cleanup confirmation sent after a successful delivery (`app.py` line 103). -/
def cleanupMsg : String := "🗑️ <b>Cleanup complete!</b> File deleted from server. 🌟"

/-- Reply for a `yt_dlp.DownloadError` (`app.py` lines 106-109). -/
def downloadFailedMsg : String :=
  "❌ <b>Uh-oh!</b> Download failed. URL might not work or is unsupported. 😔 Try again!"

/-- Reply for any other exception in the workflow (`app.py` lines 112-115). -/
def genericErrorMsg : String :=
  "❌ <b>Oops!</b> Something went wrong. Try again later! 😕"

/-- Reply of the process-wide error handler (`app.py` lines 121-124). -/
def dispatcherErrorMsg : String :=
  "❌ <b>Yikes!</b> An error occurred. Please try again! 😣"

/-- The exceptions distinguished by the workflow: `yt_dlp.DownloadError`
versus any other Python exception (carrying its message text). -/
inductive PyExn where
  | downloadError
  | otherError (msg : String)
deriving DecidableEq

/-- The slice of the yt-dlp metadata dictionary the handler reads: the
optional `title` entry (`info.get('title', 'video')`, `app.py` line 74). -/
structure VideoInfo where
  title? : Option String
deriving DecidableEq

/-- One observable side effect of a handler run, in program order. -/
inductive Effect where
  /-- `update.message.reply_text(text, parse_mode='HTML')`. -/
  | reply (text : String)
  /-- `context.bot.send_document(chat_id=..., filename=..., caption=...,
  parse_mode=..., disable_content_type_detection=...)`. -/
  | sendDocument (chat_id : Nat) (filename : String) (caption : String)
      (parse_mode : String) (disable_content_type_detection : Bool)
  /-- `os.remove(path)`. -/
  | removeFile (path : String)
  /-- `logger.error(text)`. -/
  | logError (text : String)
deriving DecidableEq

/-- The external collaborators of one `download_video` invocation, as
oracles.  A `.error` result models the Python call raising. -/
structure Env where
  /-- `validators.url` (external library; per the spec it never throws). -/
  urlValid : String → Bool
  /-- `ydl.extract_info(url, download=False)`. -/
  extract_info : String → Except PyExn VideoInfo
  /-- `ydl.prepare_filename(info)`. -/
  prepare_filename : VideoInfo → String
  /-- `ydl.download([url])`. -/
  download : String → Except PyExn Unit
  /-- `os.path.getsize(output_path)`. -/
  getsize : String → Except PyExn Nat
  /-- Whether `open` + `context.bot.send_document` succeeds or raises. -/
  send_document : Except PyExn Unit

/-- The `ydl_opts` dictionary (`app.py` lines 60-68). -/
structure YdlOpts where
  outtmpl : String
  format : String
  merge_output_format : String
  quiet : Bool
  no_warnings : Bool
  nocheckcertificate : Bool
  http_chunk_size : Nat
deriving DecidableEq

/-- `ydl_opts` as built in `download_video` for a given requesting user. -/
def ydl_opts (user_id : Nat) : YdlOpts :=
  { outtmpl := DOWNLOAD_DIR ++ "/" ++ toString user_id ++ "_%(title)s.%(ext)s"
  , format := "bestvideo[filesize<400M][ext=mp4]+bestaudio[ext=m4a]/best[ext=mp4]/best"
  , merge_output_format := "mp4"
  , quiet := true
  , no_warnings := true
  , nocheckcertificate := true
  , http_chunk_size := 10485760 }

/-- Effects produced by the two `except` clauses of `download_video`
(`app.py` lines 105-115): a `DownloadError` yields the distinct
download-failed reply; any other exception is logged and answered with the
deliberately vague generic reply. -/
def exnEffects : PyExn → List Effect
  | .downloadError => [.reply downloadFailedMsg]
  | .otherError m =>
      [.logError ("Error processing video download: " ++ m),
       .reply genericErrorMsg]

/-- The body of the `try` block of `download_video` (`app.py` lines 70-103):
the effects it performs, paired with the exception that escaped it, if any. -/
def tryBlock (env : Env) (url : String) (chat_id : Nat) :
    List Effect × Option PyExn :=
  match env.extract_info url with
  | .error e => ([], some e)
  | .ok info =>
    let video_title := info.title?.getD "video"
    let output_path := env.prepare_filename info
    match env.download url with
    | .error e => ([], some e)
    | .ok _ =>
      match env.getsize output_path with
      | .error e => ([], some e)
      | .ok file_size =>
        if file_size > MAX_FILE_SIZE then
          ([.reply (tooLargeMsg video_title file_size),
            .removeFile output_path], none)
        else
          match env.send_document with
          | .error e => ([], some e)
          | .ok _ =>
            ([.sendDocument chat_id (video_title ++ ".mp4")
                (captionMsg video_title) "HTML" true,
              .removeFile output_path,
              .reply cleanupMsg], none)

/-- `download_video` after the URL has been extracted from the message:
validation, progress notice, try block, exception mapping. -/
def downloadVideoUrl (env : Env) (url : String) (chat_id : Nat) :
    List Effect :=
  if env.urlValid url then
    let r := tryBlock env url chat_id
    Effect.reply downloadingMsg ::
      (r.1 ++ match r.2 with
              | none => []
              | some e => exnEffects e)
  else
    [Effect.reply invalidUrlMsg]

/-- The `download_video` handler (`app.py` lines 45-115): strips the
message text, validates, downloads, gatekeeps on size, delivers, cleans
up, and maps exceptions to user-facing messages.  The result is the
ordered list of effects of the invocation. -/
def download_video (env : Env) (text : String) (chat_id : Nat) :
    List Effect :=
  downloadVideoUrl env (pyStrip text) chat_id

/-- The message object of an update, as far as the error handler needs it
(only its truthiness and its chat matter). -/
structure MsgObj where
  chat_id : Nat
deriving DecidableEq

/-- A Telegram update as seen by `error_handler`: `update.message` may be
absent (`None`). -/
structure UpdateObj where
  message? : Option MsgObj
deriving DecidableEq

/-- One observable side effect of the process-wide error handler. -/
inductive ErrEffect where
  /-- `logger.error(f"Update ... caused error ...")` with the offending
  update and the error. -/
  | logUpdateError (update? : Option UpdateObj) (error : String)
  /-- `update.message.reply_text(...)`. -/
  | reply (text : String)
deriving DecidableEq

/-- The process-wide `error_handler` (`app.py` lines 117-124): logs the
offending update together with the error, then replies with the generic
apology only when `update` and `update.message` are both truthy. -/
def error_handler (update? : Option UpdateObj) (error : String) :
    List ErrEffect :=
  ErrEffect.logUpdateError update? error ::
    match update? with
    | some u =>
      match u.message? with
      | some _ => [ErrEffect.reply dispatcherErrorMsg]
      | none => []
    | none => []

/-- A bracketed filter of a yt-dlp format selector, as the spec describes
the policy: a container constraint or a file-size upper bound. -/
inductive FmtFilter where
  | extIs (e : String)
  | filesizeLt (v : String)
deriving DecidableEq

/-- Render one filter in yt-dlp selector syntax. -/
def FmtFilter.render : FmtFilter → String
  | .extIs e => "[ext=" ++ e ++ "]"
  | .filesizeLt v => "[filesize<" ++ v ++ "]"

/-- One stream selector of a tier: a base keyword (`bestvideo`,
`bestaudio`, `best`) with its filters. -/
structure FmtSel where
  base : String
  filters : List FmtFilter
deriving DecidableEq

/-- Render one stream selector in yt-dlp syntax. -/
def FmtSel.render (s : FmtSel) : String :=
  s.base ++ String.join (s.filters.map FmtFilter.render)

/-- A tier is the `+`-merge of its stream selectors. -/
def renderTier (t : List FmtSel) : String :=
  String.intercalate "+" (t.map FmtSel.render)

/-- A policy is the `/`-separated preference list of its tiers. -/
def renderPolicy (p : List (List FmtSel)) : String :=
  String.intercalate "/" (p.map renderTier)

/-- Modelled from the spec: tier (a) — the best-quality video+audio pair
where the video stream alone is smaller than the size ceiling and both
streams are in the fixed mp4/m4a container family. -/
def tierA : List FmtSel :=
  [⟨"bestvideo", [.filesizeLt "400M", .extIs "mp4"]⟩,
   ⟨"bestaudio", [.extIs "m4a"]⟩]

/-- Modelled from the spec: tier (b) — the best single stream already in
the fixed container family (mp4). -/
def tierB : List FmtSel := [⟨"best", [.extIs "mp4"]⟩]

/-- Modelled from the spec: tier (c) — the overall best available stream
regardless of container. -/
def tierC : List FmtSel := [⟨"best", []⟩]

/-- Modelled from the spec: the three-tier preference list of the
format-selection policy. -/
def specPolicy : List (List FmtSel) := [tierA, tierB, tierC]

/-- Modelled from the spec: first-match-wins evaluation of a preference
list, given any way `choose` of matching one tier against the streams a
source offers. -/
def firstMatch {α : Type} (choose : List FmtSel → Option α) :
    List (List FmtSel) → Option α
  | [] => none
  | t :: ts =>
    match choose t with
    | some x => some x
    | none => firstMatch choose ts

/-- `precedesIn a b tr = true` when `a` occurs in `tr` and some later
element equals `b`: the effect `a` happens before the effect `b`. -/
def precedesIn (a b : Effect) : List Effect → Bool
  | [] => false
  | x :: xs => if x = a then xs.contains b else precedesIn a b xs

/-- A concrete environment where every stage succeeds and the downloaded
file measures one byte over the ceiling. -/
def envOversized : Env :=
  { urlValid := fun _ => true
  , extract_info := fun _ => .ok ⟨some "t"⟩
  , prepare_filename := fun _ => "downloads/7_t.mp4"
  , download := fun _ => .ok ()
  , getsize := fun _ => .ok (MAX_FILE_SIZE + 1)
  , send_document := .ok () }

/-- A concrete environment where every stage succeeds and the downloaded
file measures exactly the ceiling, 400 × 1024 × 1024 bytes. -/
def envExact : Env :=
  { urlValid := fun _ => true
  , extract_info := fun _ => .ok ⟨some "t"⟩
  , prepare_filename := fun _ => "downloads/7_t.mp4"
  , download := fun _ => .ok ()
  , getsize := fun _ => .ok MAX_FILE_SIZE
  , send_document := .ok () }

/-- A concrete environment whose URL validator rejects everything. -/
def envInvalid : Env :=
  { urlValid := fun _ => false
  , extract_info := fun _ => .ok ⟨some "t"⟩
  , prepare_filename := fun _ => "downloads/7_t.mp4"
  , download := fun _ => .ok ()
  , getsize := fun _ => .ok 5
  , send_document := .ok () }

/-- A concrete environment where the metadata probe raises
`yt_dlp.DownloadError`. -/
def envExtractFail : Env :=
  { urlValid := fun _ => true
  , extract_info := fun _ => .error .downloadError
  , prepare_filename := fun _ => "downloads/7_t.mp4"
  , download := fun _ => .ok ()
  , getsize := fun _ => .ok 5
  , send_document := .ok () }

/-- A concrete environment where the probe metadata carries no title and
the file is oversized. -/
def envNoTitle : Env :=
  { urlValid := fun _ => true
  , extract_info := fun _ => .ok ⟨none⟩
  , prepare_filename := fun _ => "downloads/7_video.mp4"
  , download := fun _ => .ok ()
  , getsize := fun _ => .ok (MAX_FILE_SIZE + 1)
  , send_document := .ok () }

/-! ### Helper lemmas -/

/-- Dropping a predicate past a prefix on which it always holds. -/
theorem dropWhile_append_all (p : Char → Bool) (l r : List Char)
    (h : ∀ c ∈ l, p c = true) :
    (l ++ r).dropWhile p = r.dropWhile p := by
  induction l with
  | nil => rfl
  | cons a t ih =>
    simp only [List.cons_append, List.dropWhile_cons, h a (by simp)]
    exact ih (fun c hc => h c (by simp [hc]))

/-- A list whose head does not satisfy the predicate is left intact by
`dropWhile`. -/
theorem dropWhile_of_head_false (p : Char → Bool) (l : List Char)
    (h : ∀ c, l.head? = some c → p c = false) :
    l.dropWhile p = l := by
  cases l with
  | nil => rfl
  | cons a t => simp [List.dropWhile_cons, h a rfl]

/-- Stripping a list sandwiched between whitespace runs returns the core,
provided the core has no whitespace at either end. -/
theorem stripChars_sandwich (l1 l2 u : List Char)
    (h1 : ∀ c ∈ l1, isPySpace c = true)
    (h2 : ∀ c ∈ l2, isPySpace c = true)
    (hh : ∀ c, u.head? = some c → isPySpace c = false)
    (hl : ∀ c, u.getLast? = some c → isPySpace c = false) :
    stripChars (l1 ++ u ++ l2) = u := by
  unfold stripChars
  rw [List.append_assoc, dropWhile_append_all isPySpace l1 (u ++ l2) h1]
  cases u with
  | nil =>
    have : l2.dropWhile isPySpace = [] := by
      have := dropWhile_append_all isPySpace l2 [] h2
      simpa using this
    simp [this]
  | cons a t =>
    rw [List.cons_append, List.dropWhile_cons]
    rw [hh a rfl]
    simp only [Bool.false_eq_true, if_false]
    rw [show a :: (t ++ l2) = (a :: t) ++ l2 from rfl, List.reverse_append]
    rw [dropWhile_append_all isPySpace l2.reverse (a :: t).reverse
          (fun c hc => h2 c (by simpa using hc))]
    rw [dropWhile_of_head_false isPySpace (a :: t).reverse
          (fun c hc => hl c (by rwa [List.head?_reverse] at hc))]
    simp

/-- The rejection message always starts with the cross-mark character,
whatever the title and size. -/
theorem tooLargeMsg_head (t : String) (s : Nat) :
    (tooLargeMsg t s).data.head? = some '❌' := rfl

/-- The rejection message differs from every other fixed reply of the
handler. -/
theorem tooLargeMsg_ne (t : String) (s : Nat) :
    tooLargeMsg t s ≠ downloadingMsg ∧ tooLargeMsg t s ≠ cleanupMsg := by
  constructor <;> intro h <;>
    have h2 := congrArg (fun x => x.data.head?) h <;>
    simp only at h2 <;>
    rw [tooLargeMsg_head] at h2 <;>
    exact absurd h2 (by decide)

/-- In any three-effect run `[e0, a, b]` the effect `a` precedes `b`. -/
theorem precedesIn_three (e0 a b : Effect) :
    precedesIn a b [e0, a, b] = true := by
  by_cases h : e0 = a
  · simp [precedesIn, h, List.contains]
  · simp [precedesIn, h, List.contains]

/-- `tryBlock` on the oversized branch: the too-large reply, then the
removal, and no exception. -/
theorem tryBlock_tooLarge (env : Env) (url : String) (chat_id : Nat)
    (info : VideoInfo) (size : Nat)
    (hx : env.extract_info url = .ok info)
    (hd : env.download url = .ok ())
    (hs : env.getsize (env.prepare_filename info) = .ok size)
    (hbig : size > MAX_FILE_SIZE) :
    tryBlock env url chat_id =
      ([.reply (tooLargeMsg (info.title?.getD "video") size),
        .removeFile (env.prepare_filename info)], none) := by
  simp [tryBlock, hx, hd, hs, hbig]

/-- `tryBlock` on the delivery branch: upload, removal, confirmation, and
no exception. -/
theorem tryBlock_success (env : Env) (url : String) (chat_id : Nat)
    (info : VideoInfo) (size : Nat)
    (hx : env.extract_info url = .ok info)
    (hd : env.download url = .ok ())
    (hs : env.getsize (env.prepare_filename info) = .ok size)
    (hfits : ¬ size > MAX_FILE_SIZE)
    (hsend : env.send_document = .ok ()) :
    tryBlock env url chat_id =
      ([.sendDocument chat_id ((info.title?.getD "video") ++ ".mp4")
          (captionMsg (info.title?.getD "video")) "HTML" true,
        .removeFile (env.prepare_filename info),
        .reply cleanupMsg], none) := by
  simp [tryBlock, hx, hd, hs, hfits, hsend]

/-- The trace of a validated run is the progress notice followed by the
try-block effects and the exception mapping. -/
theorem download_video_trace (env : Env) (text : String) (chat_id : Nat)
    (hv : env.urlValid (pyStrip text) = true) :
    download_video env text chat_id =
      Effect.reply downloadingMsg ::
        ((tryBlock env (pyStrip text) chat_id).1 ++
          match (tryBlock env (pyStrip text) chat_id).2 with
          | none => []
          | some e => exnEffects e) := by
  simp [download_video, downloadVideoUrl, hv]

/-- Full trace of an oversized run. -/
theorem trace_tooLarge (env : Env) (text : String) (chat_id : Nat)
    (info : VideoInfo) (size : Nat)
    (hv : env.urlValid (pyStrip text) = true)
    (hx : env.extract_info (pyStrip text) = .ok info)
    (hd : env.download (pyStrip text) = .ok ())
    (hs : env.getsize (env.prepare_filename info) = .ok size)
    (hbig : size > MAX_FILE_SIZE) :
    download_video env text chat_id =
      [Effect.reply downloadingMsg,
       Effect.reply (tooLargeMsg (info.title?.getD "video") size),
       Effect.removeFile (env.prepare_filename info)] := by
  rw [download_video_trace env text chat_id hv,
      tryBlock_tooLarge env (pyStrip text) chat_id info size hx hd hs hbig]
  rfl

/-- Full trace of a successful delivery run. -/
theorem trace_success (env : Env) (text : String) (chat_id : Nat)
    (info : VideoInfo) (size : Nat)
    (hv : env.urlValid (pyStrip text) = true)
    (hx : env.extract_info (pyStrip text) = .ok info)
    (hd : env.download (pyStrip text) = .ok ())
    (hs : env.getsize (env.prepare_filename info) = .ok size)
    (hfits : ¬ size > MAX_FILE_SIZE)
    (hsend : env.send_document = .ok ()) :
    download_video env text chat_id =
      [Effect.reply downloadingMsg,
       Effect.sendDocument chat_id ((info.title?.getD "video") ++ ".mp4")
         (captionMsg (info.title?.getD "video")) "HTML" true,
       Effect.removeFile (env.prepare_filename info),
       Effect.reply cleanupMsg] := by
  rw [download_video_trace env text chat_id hv,
      tryBlock_success env (pyStrip text) chat_id info size hx hd hs hfits
        hsend]
  rfl

/-- Full trace when an exception escapes the try block with no effects
performed before it. -/
theorem trace_exn (env : Env) (text : String) (chat_id : Nat) (e : PyExn)
    (hv : env.urlValid (pyStrip text) = true)
    (ht : tryBlock env (pyStrip text) chat_id = ([], some e)) :
    download_video env text chat_id =
      Effect.reply downloadingMsg :: exnEffects e := by
  rw [download_video_trace env text chat_id hv, ht]
  rfl

/-! ### Claim theorems -/

/-- C1: for every downloaded artifact whose measured byte size exceeds
400×1024×1024 bytes, the size gatekeeper rejects it: `send_document`
never occurs, the staging file is removed before the handler returns, and
the failure message embeds the size in MiB with two-decimal precision and
the video title. -/
theorem oversized_never_delivered_and_removed
    (env : Env) (text : String) (chat_id : Nat) (info : VideoInfo)
    (size : Nat)
    (hv : env.urlValid (pyStrip text) = true)
    (hx : env.extract_info (pyStrip text) = .ok info)
    (hd : env.download (pyStrip text) = .ok ())
    (hs : env.getsize (env.prepare_filename info) = .ok size)
    (hbig : size > MAX_FILE_SIZE) :
    download_video env text chat_id =
      [Effect.reply downloadingMsg,
       Effect.reply (tooLargeMsg (info.title?.getD "video") size),
       Effect.removeFile (env.prepare_filename info)] ∧
    (∀ c f cap pm d,
      Effect.sendDocument c f cap pm d ∉ download_video env text chat_id) ∧
    Effect.removeFile (env.prepare_filename info) ∈
      download_video env text chat_id := by
  have h := trace_tooLarge env text chat_id info size hv hx hd hs hbig
  refine ⟨h, ?_, ?_⟩
  · intro c f cap pm d
    rw [h]; simp
  · rw [h]; simp

/-- C1 witness: a concrete run one byte over the ceiling. -/
theorem oversized_never_delivered_and_removed_witness :
    download_video envOversized "https://e.x/v" 9 =
      [Effect.reply downloadingMsg,
       Effect.reply (tooLargeMsg "t" (MAX_FILE_SIZE + 1)),
       Effect.removeFile "downloads/7_t.mp4"] :=
  (oversized_never_delivered_and_removed envOversized "https://e.x/v" 9
    ⟨some "t"⟩ (MAX_FILE_SIZE + 1) rfl rfl rfl rfl (by decide)).1

/-- C2 counterexample: in a concrete oversized run the handler sends the
too-large reply first and removes the file second, so the removal does not
precede the reply in the sequence of effects. -/
theorem removal_before_reply_counterexample :
    download_video envOversized "https://e.x/v" 9 =
      [Effect.reply downloadingMsg,
       Effect.reply (tooLargeMsg "t" (MAX_FILE_SIZE + 1)),
       Effect.removeFile "downloads/7_t.mp4"] ∧
    precedesIn (Effect.removeFile "downloads/7_t.mp4")
      (Effect.reply (tooLargeMsg "t" (MAX_FILE_SIZE + 1)))
      (download_video envOversized "https://e.x/v" 9) = false := by
  decide

/-- C2 amended: on a size-limit violation (a normal control-flow branch,
not an exception) the rejection message is reported to the user before the
oversized staging file is deleted; both happen before the handler
returns. -/
theorem reply_precedes_removal
    (env : Env) (text : String) (chat_id : Nat) (info : VideoInfo)
    (size : Nat)
    (hv : env.urlValid (pyStrip text) = true)
    (hx : env.extract_info (pyStrip text) = .ok info)
    (hd : env.download (pyStrip text) = .ok ())
    (hs : env.getsize (env.prepare_filename info) = .ok size)
    (hbig : size > MAX_FILE_SIZE) :
    precedesIn (Effect.reply (tooLargeMsg (info.title?.getD "video") size))
      (Effect.removeFile (env.prepare_filename info))
      (download_video env text chat_id) = true := by
  rw [trace_tooLarge env text chat_id info size hv hx hd hs hbig]
  exact precedesIn_three _ _ _

/-- C2 witness: the reply-then-remove order on a concrete oversized run. -/
theorem reply_precedes_removal_witness :
    precedesIn (Effect.reply (tooLargeMsg "t" (MAX_FILE_SIZE + 1)))
      (Effect.removeFile "downloads/7_t.mp4")
      (download_video envOversized "https://e.x/v" 9) = true :=
  reply_precedes_removal envOversized "https://e.x/v" 9 ⟨some "t"⟩
    (MAX_FILE_SIZE + 1) rfl rfl rfl rfl (by decide)

/-- C3: the format string handed to yt-dlp is exactly the rendering of the
three-tier preference list the spec describes — (a) best-quality video
stream under the 400M size bound plus best audio, both in the mp4/m4a
container family, else (b) best single mp4 stream, else (c) best overall
stream — and first-match-wins evaluation of that list tries the tiers in
exactly that order. -/
theorem format_policy_three_tier (user_id : Nat) :
    (ydl_opts user_id).format = renderPolicy specPolicy ∧
    specPolicy = [tierA, tierB, tierC] ∧
    ∀ {α : Type} (choose : List FmtSel → Option α),
      firstMatch choose specPolicy =
        ((choose tierA).orElse fun _ =>
          (choose tierB).orElse fun _ => choose tierC) := by
  refine ⟨rfl, rfl, ?_⟩
  intro α choose
  simp only [specPolicy, firstMatch]
  cases choose tierA <;> cases choose tierB <;> cases choose tierC <;> rfl

/-- C4: when the validator rejects the text, the handler replies with the
invalid-URL notice and returns at once: no progress notice, no file
removal, no upload — the workflow never reaches the download stage. -/
theorem invalid_url_short_circuits
    (env : Env) (text : String) (chat_id : Nat)
    (hv : env.urlValid (pyStrip text) = false) :
    download_video env text chat_id = [Effect.reply invalidUrlMsg] ∧
    Effect.reply downloadingMsg ∉ download_video env text chat_id ∧
    (∀ p, Effect.removeFile p ∉ download_video env text chat_id) ∧
    (∀ c f cap pm d,
      Effect.sendDocument c f cap pm d ∉ download_video env text chat_id) := by
  have h : download_video env text chat_id = [Effect.reply invalidUrlMsg] := by
    simp [download_video, downloadVideoUrl, hv]
  refine ⟨h, ?_, ?_, ?_⟩
  · rw [h]; decide
  · intro p; rw [h]; simp
  · intro c f cap pm d; rw [h]; simp

/-- C4 witness: a concrete rejected input. -/
theorem invalid_url_short_circuits_witness :
    download_video envInvalid "not a url" 9 = [Effect.reply invalidUrlMsg] :=
  (invalid_url_short_circuits envInvalid "not a url" 9 rfl).1

/-- C5: an accepted artifact is uploaded to the requester's chat as a
generic document with content-type detection disabled, the caption
containing the title and the displayed filename the title plus ".mp4";
the local file is deleted and the cleanup confirmation sent only after a
successful upload, and when the upload raises, no deletion happens on
that path. -/
theorem delivery_then_cleanup
    (env : Env) (text : String) (chat_id : Nat) (info : VideoInfo)
    (size : Nat)
    (hv : env.urlValid (pyStrip text) = true)
    (hx : env.extract_info (pyStrip text) = .ok info)
    (hd : env.download (pyStrip text) = .ok ())
    (hs : env.getsize (env.prepare_filename info) = .ok size)
    (hfits : ¬ size > MAX_FILE_SIZE) :
    (env.send_document = .ok () →
      download_video env text chat_id =
        [Effect.reply downloadingMsg,
         Effect.sendDocument chat_id ((info.title?.getD "video") ++ ".mp4")
           (captionMsg (info.title?.getD "video")) "HTML" true,
         Effect.removeFile (env.prepare_filename info),
         Effect.reply cleanupMsg]) ∧
    (∀ e, env.send_document = .error e →
      Effect.removeFile (env.prepare_filename info) ∉
        download_video env text chat_id) := by
  constructor
  · intro hsend
    exact trace_success env text chat_id info size hv hx hd hs hfits hsend
  · intro e hsend
    have ht : tryBlock env (pyStrip text) chat_id = ([], some e) := by
      simp [tryBlock, hx, hd, hs, hfits, hsend]
    rw [trace_exn env text chat_id e hv ht]
    cases e <;> simp [exnEffects]

/-- C5 witness: a concrete accepted run delivered and cleaned up. -/
theorem delivery_then_cleanup_witness :
    download_video envExact "https://e.x/v" 9 =
      [Effect.reply downloadingMsg,
       Effect.sendDocument 9 "t.mp4" (captionMsg "t") "HTML" true,
       Effect.removeFile "downloads/7_t.mp4",
       Effect.reply cleanupMsg] :=
  (delivery_then_cleanup envExact "https://e.x/v" 9 ⟨some "t"⟩ MAX_FILE_SIZE
    rfl rfl rfl rfl (by decide)).1 rfl

/-- C6: a `DownloadError` at any stage is reported with the distinct
download-failed message; any other exception during probe, download, size
probe or delivery is logged server-side and reported with the vague
generic message; both messages differ and on both paths the handler
returns normally with these as its final effects. -/
theorem exception_mapping
    (env : Env) (text : String) (chat_id : Nat)
    (hv : env.urlValid (pyStrip text) = true) :
    downloadFailedMsg ≠ genericErrorMsg ∧
    exnEffects .downloadError = [Effect.reply downloadFailedMsg] ∧
    (∀ m, exnEffects (.otherError m) =
      [Effect.logError ("Error processing video download: " ++ m),
       Effect.reply genericErrorMsg]) ∧
    (∀ e, env.extract_info (pyStrip text) = .error e →
      download_video env text chat_id =
        Effect.reply downloadingMsg :: exnEffects e) ∧
    (∀ e info, env.extract_info (pyStrip text) = .ok info →
      env.download (pyStrip text) = .error e →
      download_video env text chat_id =
        Effect.reply downloadingMsg :: exnEffects e) ∧
    (∀ e info, env.extract_info (pyStrip text) = .ok info →
      env.download (pyStrip text) = .ok () →
      env.getsize (env.prepare_filename info) = .error e →
      download_video env text chat_id =
        Effect.reply downloadingMsg :: exnEffects e) ∧
    (∀ e info size, env.extract_info (pyStrip text) = .ok info →
      env.download (pyStrip text) = .ok () →
      env.getsize (env.prepare_filename info) = .ok size →
      ¬ size > MAX_FILE_SIZE → env.send_document = .error e →
      download_video env text chat_id =
        Effect.reply downloadingMsg :: exnEffects e) := by
  refine ⟨by decide, rfl, fun m => rfl, ?_, ?_, ?_, ?_⟩
  · intro e hx
    exact trace_exn env text chat_id e hv (by simp [tryBlock, hx])
  · intro e info hx hd
    exact trace_exn env text chat_id e hv (by simp [tryBlock, hx, hd])
  · intro e info hx hd hs
    exact trace_exn env text chat_id e hv (by simp [tryBlock, hx, hd, hs])
  · intro e info size hx hd hs hfits hsend
    exact trace_exn env text chat_id e hv
      (by simp [tryBlock, hx, hd, hs, hfits, hsend])

/-- C6 witness: a concrete run whose metadata probe raises
`DownloadError`. -/
theorem exception_mapping_witness :
    download_video envExtractFail "https://e.x/v" 9 =
      [Effect.reply downloadingMsg, Effect.reply downloadFailedMsg] :=
  (exception_mapping envExtractFail "https://e.x/v" 9 rfl).2.2.2.1
    PyExn.downloadError rfl

/-- C7: the process-wide error handler first logs the offending update
together with the error, and replies with the generic apology exactly
when a message context is available on the update; with no message it
logs and sends nothing. -/
theorem error_handler_logs_then_replies
    (update? : Option UpdateObj) (error : String) :
    (error_handler update? error).head? =
      some (ErrEffect.logUpdateError update? error) ∧
    (ErrEffect.reply dispatcherErrorMsg ∈ error_handler update? error ↔
      ∃ u m, update? = some u ∧ u.message? = some m) := by
  constructor
  · rfl
  · cases update? with
    | none => simp [error_handler]
    | some u =>
      cases h : u.message? with
      | none => simp [error_handler, h]
      | some m => simp [error_handler, h]

/-- C8: the incoming text is stripped of leading and trailing whitespace
before validation: for a URL sandwiched in whitespace the handler behaves
exactly as on the bare URL, and when the validator accepts the bare URL
the workflow proceeds to the download stage (the progress notice is the
first effect). -/
theorem whitespace_stripped_before_validation
    (env : Env) (chat_id : Nat) (l1 l2 u : List Char)
    (h1 : ∀ c ∈ l1, isPySpace c = true)
    (h2 : ∀ c ∈ l2, isPySpace c = true)
    (hh : ∀ c, u.head? = some c → isPySpace c = false)
    (hl : ∀ c, u.getLast? = some c → isPySpace c = false) :
    pyStrip (String.mk (l1 ++ u ++ l2)) = String.mk u ∧
    download_video env (String.mk (l1 ++ u ++ l2)) chat_id =
      downloadVideoUrl env (String.mk u) chat_id ∧
    (env.urlValid (String.mk u) = true →
      (download_video env (String.mk (l1 ++ u ++ l2)) chat_id).head? =
        some (Effect.reply downloadingMsg)) := by
  have hstrip : pyStrip (String.mk (l1 ++ u ++ l2)) = String.mk u := by
    show String.mk (stripChars (l1 ++ u ++ l2)) = String.mk u
    rw [stripChars_sandwich l1 l2 u h1 h2 hh hl]
  have heq : download_video env (String.mk (l1 ++ u ++ l2)) chat_id =
      downloadVideoUrl env (String.mk u) chat_id := by
    show downloadVideoUrl env (pyStrip (String.mk (l1 ++ u ++ l2))) chat_id =
      downloadVideoUrl env (String.mk u) chat_id
    rw [hstrip]
  refine ⟨hstrip, heq, ?_⟩
  intro hvu
  rw [heq]
  simp [downloadVideoUrl, hvu]

/-- C8 witness: two spaces before and a newline after a concrete URL are
stripped. -/
theorem whitespace_stripped_witness :
    pyStrip (String.mk ([' ', ' '] ++ "https://a.b".data ++ ['\n'])) =
      String.mk "https://a.b".data :=
  (whitespace_stripped_before_validation envExact 9 [' ', ' '] ['\n']
    "https://a.b".data (by decide) (by decide)
    (by intro c hc; injection hc with h; subst h; decide)
    (by intro c hc; injection hc with h; subst h; decide)).1

/-- C9: the ceiling comparison is strict: a file measuring exactly
400×1024×1024 bytes is accepted and delivered, and only a strictly larger
file is rejected. -/
theorem ceiling_comparison_strict
    (env : Env) (text : String) (chat_id : Nat) (info : VideoInfo)
    (size : Nat)
    (hv : env.urlValid (pyStrip text) = true)
    (hx : env.extract_info (pyStrip text) = .ok info)
    (hd : env.download (pyStrip text) = .ok ())
    (hs : env.getsize (env.prepare_filename info) = .ok size)
    (hsend : env.send_document = .ok ()) :
    (size ≤ MAX_FILE_SIZE →
      Effect.sendDocument chat_id ((info.title?.getD "video") ++ ".mp4")
          (captionMsg (info.title?.getD "video")) "HTML" true ∈
        download_video env text chat_id ∧
      Effect.reply (tooLargeMsg (info.title?.getD "video") size) ∉
        download_video env text chat_id) ∧
    (size > MAX_FILE_SIZE →
      ∀ c f cap pm d, Effect.sendDocument c f cap pm d ∉
        download_video env text chat_id) := by
  constructor
  · intro hle
    have hfits : ¬ size > MAX_FILE_SIZE := not_lt.mpr hle
    rw [trace_success env text chat_id info size hv hx hd hs hfits hsend]
    have hne := tooLargeMsg_ne (info.title?.getD "video") size
    constructor
    · simp
    · simp [hne.1, hne.2]
  · intro hbig c f cap pm d
    rw [trace_tooLarge env text chat_id info size hv hx hd hs hbig]
    simp

/-- C9 witness: a file of exactly the ceiling size is delivered. -/
theorem ceiling_comparison_strict_witness :
    Effect.sendDocument 9 "t.mp4" (captionMsg "t") "HTML" true ∈
      download_video envExact "https://e.x/v" 9 :=
  ((ceiling_comparison_strict envExact "https://e.x/v" 9 ⟨some "t"⟩
      MAX_FILE_SIZE rfl rfl rfl rfl rfl).1 (le_refl MAX_FILE_SIZE)).1

/-- C10: when the probe metadata carries no title, the default title
"video" is used everywhere downstream: in the too-large message, the
caption, and the displayed filename "video.mp4". -/
theorem missing_title_defaults_to_video
    (env : Env) (text : String) (chat_id : Nat) (info : VideoInfo)
    (size : Nat)
    (hv : env.urlValid (pyStrip text) = true)
    (hx : env.extract_info (pyStrip text) = .ok info)
    (ht : info.title? = none)
    (hd : env.download (pyStrip text) = .ok ())
    (hs : env.getsize (env.prepare_filename info) = .ok size) :
    (size > MAX_FILE_SIZE →
      download_video env text chat_id =
        [Effect.reply downloadingMsg,
         Effect.reply (tooLargeMsg "video" size),
         Effect.removeFile (env.prepare_filename info)]) ∧
    (¬ size > MAX_FILE_SIZE → env.send_document = .ok () →
      download_video env text chat_id =
        [Effect.reply downloadingMsg,
         Effect.sendDocument chat_id "video.mp4" (captionMsg "video")
           "HTML" true,
         Effect.removeFile (env.prepare_filename info),
         Effect.reply cleanupMsg]) := by
  have htitle : info.title?.getD "video" = "video" := by rw [ht]; rfl
  constructor
  · intro hbig
    have h := trace_tooLarge env text chat_id info size hv hx hd hs hbig
    rw [htitle] at h
    exact h
  · intro hfits hsend
    have h := trace_success env text chat_id info size hv hx hd hs hfits hsend
    rw [htitle] at h
    exact h

/-- C10 witness: a concrete oversized run with no title in the metadata
uses "video" in the rejection message. -/
theorem missing_title_defaults_to_video_witness :
    download_video envNoTitle "https://e.x/v" 9 =
      [Effect.reply downloadingMsg,
       Effect.reply (tooLargeMsg "video" (MAX_FILE_SIZE + 1)),
       Effect.removeFile "downloads/7_video.mp4"] :=
  (missing_title_defaults_to_video envNoTitle "https://e.x/v" 9 ⟨none⟩
    (MAX_FILE_SIZE + 1) rfl rfl rfl rfl rfl).1 (by decide)

end YtDownloader
